import Mathlib

/-!
Verification of the interactive nmap command builder
(`src/nmap_builder.py`) against its natural-language specification.

The Python source is shallowly embedded: each interactive step is modelled
as a pure function from the operator's input line (and any sub-inputs) to a
step outcome; the mutable `command_parts` dictionary becomes the
`CommandParts` record; the persisted history file becomes an explicit
`List HistoryEntry` threaded through the operations; Python `str` methods
are modelled by executable helpers over the character list of the string.
-/

/-- Model of Python `str.strip()`: removes leading and trailing whitespace. -/
def py_strip (s : String) : String :=
  String.mk (((s.data.dropWhile Char.isWhitespace).reverse.dropWhile Char.isWhitespace).reverse)

/-- Splitting a character list on a single separator character, keeping empty
pieces, exactly like Python `str.split(sep)` with a one-character separator. -/
def py_split_on_char (sep : Char) : List Char → List (List Char)
  | [] => [[]]
  | c :: cs =>
    if c = sep then [] :: py_split_on_char sep cs
    else
      match py_split_on_char sep cs with
      | [] => [[c]]
      | l :: ls => (c :: l) :: ls

/-- Model of Python `s.split(sep)` for a one-character separator. -/
def py_split (s : String) (sep : Char) : List String :=
  (py_split_on_char sep s.data).map String.mk

/-- Splitting a character list on runs of whitespace, dropping empty pieces,
exactly like Python `str.split()` with no argument. -/
def py_split_ws_chars : List Char → List (List Char)
  | [] => []
  | c :: cs =>
    if Char.isWhitespace c then py_split_ws_chars cs
    else
      match py_split_ws_chars cs with
      | [] => [[c]]
      | l :: ls =>
        match cs with
        | [] => [[c]]
        | c2 :: _ => if Char.isWhitespace c2 then [c] :: l :: ls else (c :: l) :: ls

/-- Model of Python `s.split()` (split on whitespace, no empty pieces). -/
def py_split_ws (s : String) : List String :=
  (py_split_ws_chars s.data).map String.mk

/-- Numeric value of a decimal digit character. -/
def py_digit_val (c : Char) : Nat := c.toNat - 48

/-- Model of the guarded conversion `choice.isdigit() and int(choice)` used by
the history view: the stripped string must be non-empty and all digits. -/
def py_int? (s : String) : Option Nat :=
  let t := py_strip s
  if t.data ≠ [] ∧ t.data.all Char.isDigit then
    some (t.data.foldl (fun acc c => acc * 10 + py_digit_val c) 0)
  else Option.none

/-- Helper for splitting a character list on a multi-character separator:
does the list start with the given pattern? -/
def starts_with_chars : List Char → List Char → Bool
  | _, [] => true
  | [], _ :: _ => false
  | c :: cs, p :: ps => c = p && starts_with_chars cs ps

/-- Fuel-driven split of a character list on a separator sublist, keeping
empty pieces; the fuel is an upper bound on the list length so the
recursion is structural and computable in the kernel. -/
def split_on_sub_aux (sep : List Char) : Nat → List Char → List (List Char)
  | 0, l => [l]
  | _ + 1, [] => [[]]
  | fuel + 1, c :: cs =>
    if starts_with_chars (c :: cs) sep then
      [] :: split_on_sub_aux sep fuel (List.drop (sep.length - 1) cs)
    else
      match split_on_sub_aux sep fuel cs with
      | [] => [[c]]
      | l :: ls => (c :: l) :: ls

/-- Model of Python `s.split(sep)` for a multi-character separator. -/
def py_split_on_string (s sep : String) : List String :=
  (split_on_sub_aux sep.data (s.data.length + 1) s.data).map String.mk

/-- Model of Python negative indexing `l[-k]`: defined exactly when
`1 ≤ k ≤ len(l)`, in which case it is the element at position `len(l) - k`;
`Option.none` models the `IndexError` raised otherwise. -/
def py_neg_index {α : Type} (l : List α) (k : Nat) : Option α :=
  if 1 ≤ k ∧ k ≤ l.length then l[l.length - k]? else Option.none

/-- Descriptor of one catalog option: display name, command-line flag, help
text, as in the dictionaries defined in `NmapBuilder.__init__`. -/
structure OptionDescriptor where
  name : String
  flag : String
  description : String
  deriving DecidableEq, Repr

/-- Scan type catalog (`self.scan_types`, source lines 31-44). -/
def scan_types : List (String × OptionDescriptor) :=
  [ ("1", ⟨"TCP SYN Scan", "-sS", "Half-open scan, stealthy and fast"⟩)
  , ("2", ⟨"TCP Connect Scan", "-sT", "Full TCP connection, works without root"⟩)
  , ("3", ⟨"UDP Scan", "-sU", "Scan UDP ports (slower)"⟩)
  , ("4", ⟨"TCP ACK Scan", "-sA", "Firewall rule detection"⟩)
  , ("5", ⟨"TCP Window Scan", "-sW", "Window size exploitation"⟩)
  , ("6", ⟨"TCP Maimon Scan", "-sM", "FIN/ACK probe"⟩)
  , ("7", ⟨"TCP Null Scan", "-sN", "No flags set (stealth)"⟩)
  , ("8", ⟨"TCP FIN Scan", "-sF", "FIN flag only (stealth)"⟩)
  , ("9", ⟨"TCP Xmas Scan", "-sX", "FIN, PSH, URG flags (stealth)"⟩)
  , ("10", ⟨"Ping Scan", "-sn", "Host discovery only"⟩)
  , ("11", ⟨"List Scan", "-sL", "List targets without scanning"⟩)
  , ("12", ⟨"Version Detection", "-sV", "Service version detection"⟩) ]

/-- Timing template catalog (`self.timing_templates`, source lines 46-53). -/
def timing_templates : List (String × OptionDescriptor) :=
  [ ("0", ⟨"Paranoid", "-T0", "Very slow, IDS evasion"⟩)
  , ("1", ⟨"Sneaky", "-T1", "Slow, IDS evasion"⟩)
  , ("2", ⟨"Polite", "-T2", "Slow, less bandwidth"⟩)
  , ("3", ⟨"Normal", "-T3", "Default timing"⟩)
  , ("4", ⟨"Aggressive", "-T4", "Fast, assume fast network"⟩)
  , ("5", ⟨"Insane", "-T5", "Very fast, may miss results"⟩) ]

/-- Descriptor of one output format: display name, flag, file extension. -/
structure OutputFormat where
  name : String
  flag : String
  ext : String
  deriving DecidableEq, Repr

/-- Output format catalog (`self.output_formats`, source lines 55-61). -/
def output_formats : List (String × OutputFormat) :=
  [ ("1", ⟨"Normal Output", "-oN", ".nmap"⟩)
  , ("2", ⟨"XML Output", "-oX", ".xml"⟩)
  , ("3", ⟨"Greppable Output", "-oG", ".gnmap"⟩)
  , ("4", ⟨"All Formats", "-oA", ""⟩)
  , ("5", ⟨"Script Kiddie", "-oS", ".skid"⟩) ]

/-- Detection option catalog (`self.detection_options`, source lines 63-73). -/
def detection_options : List (String × OptionDescriptor) :=
  [ ("1", ⟨"Service Version Detection", "-sV", "Detect service versions"⟩)
  , ("2", ⟨"OS Detection", "-O", "Enable OS detection"⟩)
  , ("3", ⟨"Script Scan (Default)", "-sC", "Run default NSE scripts"⟩)
  , ("4", ⟨"Script Scan (All)", "--script=all", "Run all NSE scripts"⟩)
  , ("5", ⟨"Script Scan (Vuln)", "--script=vuln", "Run vulnerability scripts"⟩)
  , ("6", ⟨"Script Scan (Auth)", "--script=auth", "Run authentication scripts"⟩)
  , ("7", ⟨"Script Scan (Discovery)", "--script=discovery", "Run discovery scripts"⟩)
  , ("8", ⟨"Aggressive Scan", "-A", "Enable OS detection, version detection, script scanning"⟩)
  , ("9", ⟨"Custom Script", "--script=", "Specify custom NSE script"⟩) ]

/-- Port specification catalog (`port_options` local to
`get_port_specification`, source lines 155-169).  The flags
`custom_range`, `custom_list` and `custom_single` are sentinels that send
the step into a sub-dialogue. -/
def port_options : List (String × OptionDescriptor) :=
  [ ("1", ⟨"Default NMAP ports", "", "NMAP default port selection (~1000 ports)"⟩)
  , ("2", ⟨"Fast scan", "-F", "Top 100 most common ports"⟩)
  , ("3", ⟨"All ports", "-p-", "All 65535 ports (very slow)"⟩)
  , ("4", ⟨"Top 100 ports", "--top-ports 100", "Most common 100 ports"⟩)
  , ("5", ⟨"Top 1000 ports", "--top-ports 1000", "Most common 1000 ports"⟩)
  , ("6", ⟨"Well-known ports", "-p 1-1023", "System/well-known ports (1-1023)"⟩)
  , ("7", ⟨"Common web ports", "-p 80,443,8080,8443,8000,8888", "HTTP/HTTPS and common web ports"⟩)
  , ("8", ⟨"Common service ports", "-p 21,22,23,25,53,80,110,143,443,993,995", "FTP, SSH, Telnet, SMTP, DNS, HTTP, POP, IMAP, HTTPS"⟩)
  , ("9", ⟨"Database ports", "-p 1433,1521,3306,5432,27017", "MSSQL, Oracle, MySQL, PostgreSQL, MongoDB"⟩)
  , ("10", ⟨"Remote access ports", "-p 22,23,3389,5900,5901,5902", "SSH, Telnet, RDP, VNC"⟩)
  , ("11", ⟨"Custom port range", "custom_range", "Specify your own port range"⟩)
  , ("12", ⟨"Custom port list", "custom_list", "Specify individual ports"⟩)
  , ("13", ⟨"Single port", "custom_single", "Specify a single port"⟩) ]

/-- Quick scan template: display name, command pattern with a single
target placeholder, description. -/
structure Template where
  name : String
  command : String
  description : String
  deriving DecidableEq, Repr

/-- Quick scan template catalog (`templates` local to `quick_templates`,
source lines 672-713). -/
def templates : List (String × Template) :=
  [ ("1", ⟨"Quick Host Discovery", "nmap -sn \x7btarget\x7d", "Fast ping scan to discover live hosts"⟩)
  , ("2", ⟨"Fast TCP Scan", "nmap -F \x7btarget\x7d", "Scan top 100 most common ports"⟩)
  , ("3", ⟨"Comprehensive Scan", "nmap -sS -sV -O -A \x7btarget\x7d", "SYN scan with version and OS detection"⟩)
  , ("4", ⟨"Stealth Scan", "nmap -sS -T1 -f \x7btarget\x7d", "Slow, fragmented SYN scan for IDS evasion"⟩)
  , ("5", ⟨"UDP Service Scan", "nmap -sU --top-ports 20 \x7btarget\x7d", "Scan top 20 UDP ports"⟩)
  , ("6", ⟨"Vulnerability Scan", "nmap -sV --script=vuln \x7btarget\x7d", "Version detection with vulnerability scripts"⟩)
  , ("7", ⟨"Web Server Scan", "nmap -p 80,443 -sV --script=http-* \x7btarget\x7d", "Focus on web services with HTTP scripts"⟩)
  , ("8", ⟨"Full Port Scan", "nmap -p- -T4 \x7btarget\x7d", "Scan all 65535 ports (aggressive timing)"⟩) ]

/-- Model of `template['command'].format(target=target)`: replace every
occurrence of the target placeholder by the target string. -/
def format_template (pattern target : String) : String :=
  String.intercalate target (py_split_on_string pattern "\x7btarget\x7d")

/-- Outcome of feeding one line of operator input to an interactive step:
the step either records a flag (`set`), records a token list (`setList`),
ends leaving the field absent (`skip`), rejects the line and prompts again
(`reprompt`), or enters one of the custom port sub-dialogues. -/
inductive StepOutcome where
  | set (flag : String)
  | setList (toks : List String)
  | skip
  | reprompt
  | customRange
  | customList
  | customSingle
  deriving DecidableEq, Repr

/-- Step 1 (`get_scan_type`, source lines 110-126): one iteration of the
selection loop; a key of the scan type catalog records its flag, anything
else re-prompts. -/
def get_scan_type (input : String) : StepOutcome :=
  match scan_types.lookup (py_strip input) with
  | some d => StepOutcome.set d.flag
  | Option.none => StepOutcome.reprompt

/-- Step 2 (`get_target`, source lines 128-147): one iteration of the
target loop; a non-empty stripped line records the target, an empty line
re-prompts. -/
def get_target (input : String) : StepOutcome :=
  let target := py_strip input
  if target = "" then StepOutcome.reprompt else StepOutcome.set target

/-- Step 3 (`get_port_specification`, source lines 174-244): one iteration
of the outer selection loop; a catalog key either records a predefined
flag, ends with no flag (choice 1, whose flag is empty), or enters a
custom sub-dialogue; anything else re-prompts. -/
def get_port_specification_choice (input : String) : StepOutcome :=
  match port_options.lookup (py_strip input) with
  | Option.none => StepOutcome.reprompt
  | some d =>
    if d.flag = "custom_range" then StepOutcome.customRange
    else if d.flag = "custom_list" then StepOutcome.customList
    else if d.flag = "custom_single" then StepOutcome.customSingle
    else if d.flag = "" then StepOutcome.skip
    else StepOutcome.set d.flag

/-- Custom port range sub-dialogue (source lines 182-197): one iteration
with both bounds already parsed as integers; `some` carries the ports flag
recorded on success, `Option.none` models the re-prompt on a rejected
range. -/
def custom_port_range (start_port end_port : Int) : Option String :=
  if 1 ≤ start_port ∧ start_port ≤ 65535 ∧ 1 ≤ end_port ∧ end_port ≤ 65535 ∧
      start_port ≤ end_port then
    some ("-p " ++ toString start_port ++ "-" ++ toString end_port)
  else Option.none

/-- Step 4 (`get_timing_template`, source lines 246-261): a single prompt
with no loop; a catalog key records its flag, anything else (the empty
line included) keeps the default. -/
def get_timing_template (input : String) : StepOutcome :=
  match timing_templates.lookup (py_strip input) with
  | some d => StepOutcome.set d.flag
  | Option.none => StepOutcome.skip

/-- Body of the detection selection loop (source lines 277-285): walks the
comma-separated keys; unknown keys add nothing, key 9 consumes the next
script-name input, any other known key adds its catalog flag.  The
`scripts` function supplies the successive answers to the script-name
prompt and `n` counts how many have been consumed. -/
def detection_flags_go (scripts : Nat → String) : List String → Nat → List String
  | [], _ => []
  | choice :: rest, n =>
    match detection_options.lookup (py_strip choice) with
    | Option.none => detection_flags_go scripts rest n
    | some d =>
      if py_strip choice = "9" then
        ("--script=" ++ py_strip (scripts n)) :: detection_flags_go scripts rest (n + 1)
      else d.flag :: detection_flags_go scripts rest n

/-- Flags collected from one comma-separated detection selection
(source lines 275-287). -/
def get_detection_flags (choices : String) (scripts : Nat → String) : List String :=
  detection_flags_go scripts (py_split choices ',') 0

/-- Step 5 (`get_detection_options`, source lines 263-287): an empty
selection leaves the field absent; otherwise the collected flags are
joined into the detection field. -/
def get_detection_options (input : String) (scripts : Nat → String) : StepOutcome :=
  let choices := py_strip input
  if choices = "" then StepOutcome.skip
  else StepOutcome.set (String.intercalate " " (get_detection_flags choices scripts))

/-- Step 6 (`get_output_options`, source lines 289-316): a catalog key
prompts for a filename (empty answer replaced by the timestamp default)
and records the output flag; anything else, the empty line included,
leaves the field absent.  `ts` is the timestamp used for the default
filename. -/
def get_output_options (input fname ts : String) : StepOutcome :=
  match output_formats.lookup (py_strip input) with
  | Option.none => StepOutcome.skip
  | some d =>
    let default_name := "nmap_scan_" ++ ts
    let filename := if py_strip fname = "" then default_name else py_strip fname
    if d.ext ≠ "" then StepOutcome.set (d.flag ++ " " ++ filename ++ d.ext)
    else StepOutcome.set (d.flag ++ " " ++ filename)

/-- Step 7 (`get_misc_options`, source lines 318-336): a non-empty line is
split on whitespace into extra tokens; the empty line leaves the field
absent. -/
def get_misc_options (input : String) : StepOutcome :=
  let misc := py_strip input
  if misc = "" then StepOutcome.skip else StepOutcome.setList (py_split_ws misc)

/-- The `self.command_parts` record holding one in-progress build
(source lines 21-29). -/
structure CommandParts where
  scan_type : String
  target : String
  ports : String
  timing : String
  detection : String
  output : String
  misc_options : List String
  deriving DecidableEq, Repr

/-- The fresh `command_parts` value of `__init__` and `build_new_command`:
every field empty. -/
def initial_command_parts : CommandParts :=
  ⟨"", "", "", "", "", "", []⟩

/-- Setter for the scan type field, as performed by the scan type step. -/
def set_scan_type (p : CommandParts) (flag : String) : CommandParts :=
  { p with scan_type := flag }

/-- Setter for the ports field, as performed by the port step. -/
def set_ports (p : CommandParts) (flag : String) : CommandParts :=
  { p with ports := flag }

/-- Setter for the timing field, as performed by the timing step. -/
def set_timing (p : CommandParts) (flag : String) : CommandParts :=
  { p with timing := flag }

/-- Setter for the target field, as performed by the target step. -/
def set_target (p : CommandParts) (t : String) : CommandParts :=
  { p with target := t }

/-- Token list assembled by `build_command` before the target is appended
(source lines 340-364): the tool name followed by the non-empty optional
fields in their fixed order, with detection and output split on
whitespace. -/
def build_head (p : CommandParts) : List String :=
  let c1 := if p.scan_type ≠ "" then ["nmap"] ++ [p.scan_type] else ["nmap"]
  let c2 := if p.ports ≠ "" then c1 ++ [p.ports] else c1
  let c3 := if p.timing ≠ "" then c2 ++ [p.timing] else c2
  let c4 := if p.detection ≠ "" then c3 ++ py_split_ws p.detection else c3
  let c5 := if p.output ≠ "" then c4 ++ py_split_ws p.output else c4
  if p.misc_options ≠ [] then c5 ++ p.misc_options else c5

/-- Full token list of `build_command`: the head followed by the target,
which is always appended last (source lines 366-367). -/
def build_parts (p : CommandParts) : List String :=
  build_head p ++ [p.target]

/-- The rendered command (`build_command`, source lines 338-369): the
token list joined with single spaces. -/
def build_command (p : CommandParts) : String :=
  String.intercalate " " (build_parts p)

/-- Modelled from the spec: the contract `render(state) → RenderedCommand,
fails if state.target is empty` of section 4.3, stated as an optional
result; it is compared with the total source function `build_command`. -/
def render_spec (p : CommandParts) : Option String :=
  if p.target = "" then Option.none else some (build_command p)

/-- One persisted history record (source lines 500-504). -/
structure HistoryEntry where
  timestamp : String
  command : String
  target : String
  deriving DecidableEq, Repr

/-- Core of `save_command_history` (source lines 499-508) on the in-memory
history list: append the new entry, then keep only the last 50 entries
(`history[-50:]`). -/
def save_command_history (history : List HistoryEntry) (entry : HistoryEntry) :
    List HistoryEntry :=
  (history ++ [entry]).drop ((history ++ [entry]).length - 50)

/-- Result of the history selection prompt: no selection (invalid or empty
input), a crash from an out-of-range negative index, or a selected
command. -/
inductive HistorySelect where
  | noSelection
  | indexError
  | selected (cmd : String)
  deriving DecidableEq, Repr

/-- Selection logic of `show_command_history` for an already parsed choice
`i` (source lines 545-546): guarded by `1 <= i <= min(10, len(history))`,
then the Python negative lookup `history[-(11-i)]`. -/
def history_select_choice (history : List HistoryEntry) (i : Nat) : HistorySelect :=
  if 1 ≤ i ∧ i ≤ min 10 history.length then
    match py_neg_index history (11 - i) with
    | some e => HistorySelect.selected e.command
    | Option.none => HistorySelect.indexError
  else HistorySelect.noSelection

/-- Selection prompt of `show_command_history` (source lines 544-550): the
stripped input must be all digits, otherwise no selection is made. -/
def show_command_history_select (history : List HistoryEntry) (input : String) :
    HistorySelect :=
  match py_int? input with
  | some i => history_select_choice history i
  | Option.none => HistorySelect.noSelection

/-- Session state relevant to the post-build pipeline: the builder record
and the persisted history. -/
structure Session where
  command_parts : CommandParts
  history : List HistoryEntry
  deriving DecidableEq, Repr

/-- A fresh session: empty builder state, empty history. -/
def fresh_session : Session :=
  ⟨initial_command_parts, []⟩

/-- One operator choice in the post-build options menu
(source lines 638-663). -/
inductive MenuChoice where
  | execute
  | saveScript
  | copyClip
  | modify (raw : String)
  | ret
  | invalidChoice (raw : String)
  deriving DecidableEq, Repr

/-- An external action dispatched from the post-build menu, recording the
command string handed to the collaborator. -/
inductive MenuAction where
  | executed (cmd : String)
  | savedScript (cmd : String)
  | copied (cmd : String)
  deriving DecidableEq, Repr

/-- The post-build options loop (source lines 628-663): execute, script
saving and clipboard use the current command; modify replaces the current
command with the stripped input when it is non-empty; return ends the
loop; anything else re-prompts.  The loop performs no history write. -/
def menu_loop : String → List MenuChoice → List MenuAction
  | _, [] => []
  | command, MenuChoice.execute :: rest =>
    MenuAction.executed command :: menu_loop command rest
  | command, MenuChoice.saveScript :: rest =>
    MenuAction.savedScript command :: menu_loop command rest
  | command, MenuChoice.copyClip :: rest =>
    MenuAction.copied command :: menu_loop command rest
  | command, MenuChoice.modify raw :: rest =>
    let new_command := py_strip raw
    if new_command ≠ "" then menu_loop new_command rest else menu_loop command rest
  | _, MenuChoice.ret :: _ => []
  | command, MenuChoice.invalidChoice _ :: rest => menu_loop command rest

/-- The post-build pipeline (`process_built_command`, source lines
613-663): the command is appended to the history exactly once, with the
target field taken from the leftover builder state, before the options
menu runs.  `now` is the timestamp of the new entry. -/
def process_built_command (s : Session) (command now : String)
    (menu : List MenuChoice) : Session × List MenuAction :=
  ({ s with
      history := save_command_history s.history ⟨now, command, s.command_parts.target⟩ },
    menu_loop command menu)

/-- The template path (`quick_templates`, source lines 718-725): a valid
template key prompts for a target; a non-empty target instantiates the
pattern and feeds the command to the post-build pipeline without touching
the builder state. -/
def quick_templates_run (s : Session) (choice rawTarget now : String)
    (menu : List MenuChoice) : Session × List MenuAction :=
  match templates.lookup (py_strip choice) with
  | some t =>
    if py_strip rawTarget ≠ "" then
      process_built_command s (format_template t.command (py_strip rawTarget)) now menu
    else (s, [])
  | Option.none => (s, [])

/-- Concrete five-entry history used as a test fixture. -/
def history5 : List HistoryEntry :=
  [⟨"t0", "c0", "g0"⟩, ⟨"t1", "c1", "g1"⟩, ⟨"t2", "c2", "g2"⟩,
   ⟨"t3", "c3", "g3"⟩, ⟨"t4", "c4", "g4"⟩]

/-- Concrete ten-entry history used as a test fixture. -/
def history10 : List HistoryEntry :=
  history5 ++
    [⟨"t5", "c5", "g5"⟩, ⟨"t6", "c6", "g6"⟩, ⟨"t7", "c7", "g7"⟩,
     ⟨"t8", "c8", "g8"⟩, ⟨"t9", "c9", "g9"⟩]

/-- Concrete history entry used as a test fixture. -/
def entry_a : HistoryEntry :=
  ⟨"2025-01-01T00:00:00", "nmap -sS 10.0.0.1", "10.0.0.1"⟩

/-- Second concrete history entry used as a test fixture. -/
def entry_b : HistoryEntry :=
  ⟨"2025-01-02T00:00:00", "nmap -F 10.0.0.2", "10.0.0.2"⟩

/-- Concrete full fifty-entry history used as a test fixture. -/
def history50 : List HistoryEntry :=
  List.replicate 50 entry_a

/-- Joining with the accumulator helper of `String.intercalate`: a final
element contributes the separator and itself at the end. -/
theorem intercalate_go_append_last (t acc : String) (l : List String) :
    String.intercalate.go acc " " (l ++ [t]) =
      String.intercalate.go acc " " l ++ " " ++ t := by
  induction l generalizing acc with
  | nil => rfl
  | cons a as ih =>
    simp only [List.cons_append, String.intercalate.go]
    exact ih (acc ++ " " ++ a)

/-- Joining a non-empty token list with a final element appended puts that
element, preceded by one separator, at the end of the joined string. -/
theorem intercalate_space_append_last (l : List String) (t : String) (h : l ≠ []) :
    String.intercalate " " (l ++ [t]) = String.intercalate " " l ++ " " ++ t := by
  cases l with
  | nil => exact absurd rfl h
  | cons a as =>
    simp only [List.cons_append, String.intercalate]
    exact intercalate_go_append_last t a as

/-- The head token list of a rendered command is never empty: it always
starts with the tool name. -/
theorem build_head_ne_nil (p : CommandParts) : build_head p ≠ [] := by
  simp only [build_head]
  split_ifs <;> simp

/-- The rendered command always ends with one separator followed by the
target: the target is the last token, whatever the state holds. -/
theorem build_command_target_last (p : CommandParts) :
    ∃ s, build_command p = s ++ " " ++ p.target := by
  refine ⟨String.intercalate " " (build_head p), ?_⟩
  unfold build_command build_parts
  exact intercalate_space_append_last (build_head p) p.target (build_head_ne_nil p)

/-- The target step either re-prompts or records a non-empty target. -/
theorem get_target_cases (input : String) :
    get_target input = StepOutcome.reprompt ∨
      ∃ t, get_target input = StepOutcome.set t ∧ t ≠ "" := by
  by_cases h : py_strip input = ""
  · left; simp [get_target, h]
  · right; exact ⟨py_strip input, by simp [get_target, h], h⟩

/-- The entry just appended is always the last element of the saved
history. -/
theorem save_command_history_getLast (h : List HistoryEntry) (e : HistoryEntry) :
    (save_command_history h e).getLast? = some e := by
  unfold save_command_history
  have hd : (h ++ [e]).length - 50 ≤ h.length := by
    simp only [List.length_append, List.length_cons, List.length_nil]
    omega
  rw [List.drop_append_of_le_length hd]
  exact List.getLast?_concat _

/-- C1 counterexample: the claim's own instance fails.  For the five-entry
history, the code's guard allows display index 1 but the lookup
`history[-(11-1)] = history[-10]` is out of range, so selection raises an
IndexError instead of resolving to the entry at position `5 - 1 = 4`
(command "c4"). -/
theorem C1_counterexample :
    show_command_history_select history5 "1" = HistorySelect.indexError ∧
    HistorySelect.indexError ≠ HistorySelect.selected "c4" := by
  constructor
  · decide
  · decide

/-- C1 (amended): the history view numbers the displayed window with 1 =
oldest shown entry, and selecting display index i resolves to
`history[-(11-i)]`, the entry at 0-based position `L - (11 - i)`.  When
the history holds at least 10 entries this is exactly the entry shown on
display line i; for shorter histories the lookup can raise an IndexError
(as the counterexample shows for every selectable index of a 5-entry
history). -/
theorem C1_display_selection (h : List HistoryEntry) (i : Nat)
    (hlen : 10 ≤ h.length) (h1 : 1 ≤ i) (h10 : i ≤ 10) :
    ∃ e, (h.drop (h.length - 10))[i - 1]? = some e ∧
      history_select_choice h i = HistorySelect.selected e.command := by
  have hpos : h.length - (11 - i) < h.length := by omega
  refine ⟨h.get ⟨h.length - (11 - i), hpos⟩, ?_, ?_⟩
  · rw [List.getElem?_drop]
    have harith : h.length - 10 + (i - 1) = h.length - (11 - i) := by omega
    rw [harith]
    simp [List.getElem?_eq_getElem hpos]
  · have hneg : py_neg_index h (11 - i) = some (h.get ⟨h.length - (11 - i), hpos⟩) := by
      unfold py_neg_index
      rw [if_pos (by omega : 1 ≤ 11 - i ∧ 11 - i ≤ h.length)]
      simp [List.getElem?_eq_getElem hpos]
    unfold history_select_choice
    rw [if_pos (by omega : 1 ≤ i ∧ i ≤ min 10 h.length), hneg]

/-- C1 witness: the amended statement evaluated on the concrete ten-entry
history at display index 1, which resolves to the first (oldest) entry. -/
theorem C1_display_selection_witness :
    10 ≤ history10.length ∧
    ∃ e, (history10.drop (history10.length - 10))[1 - 1]? = some e ∧
      history_select_choice history10 1 = HistorySelect.selected e.command :=
  ⟨by decide, C1_display_selection history10 1 (by decide) (by decide) (by decide)⟩

/-- C2 counterexample: the scan type step and the port step do not skip on
empty input; both re-prompt, contradicting the claim that every step but
Target may be skipped by entering empty input. -/
theorem C2_counterexample :
    get_scan_type "" = StepOutcome.reprompt ∧
    get_port_specification_choice "" = StepOutcome.reprompt ∧
    StepOutcome.reprompt ≠ StepOutcome.skip := by
  refine ⟨by decide, by decide, by decide⟩

/-- C2 (amended): only the Timing, Detection, Output and Misc steps are
skipped by empty input, leaving the field absent; ScanType and Ports
re-prompt on empty input and loop until a valid selection (the ports
field can be left absent only by selecting option 1, whose flag is
empty); Target re-prompts until a non-empty value is entered. -/
theorem C2_skippable_steps :
    get_timing_template "" = StepOutcome.skip
    ∧ (∀ scripts : Nat → String, get_detection_options "" scripts = StepOutcome.skip)
    ∧ (∀ fname ts : String, get_output_options "" fname ts = StepOutcome.skip)
    ∧ get_misc_options "" = StepOutcome.skip
    ∧ get_scan_type "" = StepOutcome.reprompt
    ∧ get_port_specification_choice "" = StepOutcome.reprompt
    ∧ get_target "" = StepOutcome.reprompt
    ∧ get_port_specification_choice "1" = StepOutcome.skip
    ∧ (∀ input : String, get_target input = StepOutcome.reprompt ∨
        ∃ t, get_target input = StepOutcome.set t ∧ t ≠ "") :=
  ⟨rfl, fun _ => rfl, fun _ _ => rfl, rfl, by decide, by decide, rfl, by decide,
    get_target_cases⟩

/-- C3 counterexample: `build_command` does not fail on an empty target.
Where the spec contract (`render_spec`) fails on the all-empty state, the
source function renders it to the string "nmap " (a trailing empty
token). -/
theorem C3_counterexample :
    render_spec initial_command_parts = Option.none ∧
    build_command initial_command_parts = "nmap " :=
  ⟨rfl, rfl⟩

/-- C3 (amended): `build_command` is total and never fails; it renders any
state, empty target included, with the target as the final token.  The
non-emptiness of the target is enforced not by the renderer but by the
Target step, which re-prompts until a non-empty value is entered. -/
theorem C3_render_total :
    (∀ p : CommandParts, ∃ s, build_command p = s ++ " " ++ p.target)
    ∧ (∀ input : String, get_target input = StepOutcome.reprompt ∨
        ∃ t, get_target input = StepOutcome.set t ∧ t ≠ "") :=
  ⟨build_command_target_last, get_target_cases⟩

/-- C4 (confirmed): rendering is order-invariant with respect to the order
in which fields are filled (setters commute under rendering), emits the
tokens in the fixed category order scan type, ports, timing, detection,
output, extra options, always puts the target last, and renders the
spec's example state to exactly "nmap -sS -p 80,443 10.0.0.1". -/
theorem C4_fixed_order_rendering :
    (∀ (p : CommandParts) (a b : String),
      build_command (set_ports (set_scan_type p a) b) =
        build_command (set_scan_type (set_ports p b) a))
    ∧ (∀ (p : CommandParts) (a b : String),
      build_command (set_timing (set_ports p a) b) =
        build_command (set_ports (set_timing p b) a))
    ∧ (∀ p : CommandParts, build_head p =
        ["nmap"] ++ (if p.scan_type ≠ "" then [p.scan_type] else [])
          ++ (if p.ports ≠ "" then [p.ports] else [])
          ++ (if p.timing ≠ "" then [p.timing] else [])
          ++ (if p.detection ≠ "" then py_split_ws p.detection else [])
          ++ (if p.output ≠ "" then py_split_ws p.output else [])
          ++ p.misc_options)
    ∧ (∀ p : CommandParts, ∃ s, build_command p = s ++ " " ++ p.target)
    ∧ build_command ⟨"-sS", "10.0.0.1", "-p 80,443", "", "", "", []⟩ =
        "nmap -sS -p 80,443 10.0.0.1" := by
  refine ⟨fun p a b => rfl, fun p a b => rfl, ?_, build_command_target_last, rfl⟩
  intro p
  simp only [build_head]
  split_ifs <;> simp_all

/-- C5 (confirmed): appending to the history keeps at most 50 entries, the
kept entries are a suffix of the old history followed by the new entry
(the most recent ones, in original order), and appending to a full
50-entry history drops exactly the oldest entry. -/
theorem C5_history_fifo_bounded (h : List HistoryEntry) (e : HistoryEntry) :
    (save_command_history h e).length = min (h.length + 1) 50 ∧
    (save_command_history h e).IsSuffix (h ++ [e]) ∧
    (h.length = 50 → save_command_history h e = h.tail ++ [e]) := by
  refine ⟨?_, ?_, ?_⟩
  · unfold save_command_history
    rw [List.length_drop]
    simp only [List.length_append, List.length_cons, List.length_nil]
    omega
  · unfold save_command_history
    exact List.drop_suffix _ _
  · intro h50
    unfold save_command_history
    have hlen : (h ++ [e]).length - 50 = 1 := by
      simp only [List.length_append, List.length_cons, List.length_nil, h50]
    rw [hlen, List.drop_append_of_le_length (by omega), List.drop_one]

/-- C5 witness: the theorem applied to the concrete full 50-entry history
and a fresh entry. -/
theorem C5_history_fifo_bounded_witness :
    history50.length = 50 ∧
    (save_command_history history50 entry_b).length = min (history50.length + 1) 50 ∧
    save_command_history history50 entry_b = history50.tail ++ [entry_b] :=
  ⟨by decide, (C5_history_fifo_bounded history50 entry_b).1,
    (C5_history_fifo_bounded history50 entry_b).2.2 (by decide)⟩

/-- C6 (confirmed): the custom port range dialogue accepts exactly the
integer pairs (a, b) with 1 ≤ a ≤ b ≤ 65535 and then records exactly the
flag "-p a-b"; any other pair is rejected and re-prompts (`Option.none`). -/
theorem C6_port_range_validation (a b : Int) :
    (1 ≤ a ∧ a ≤ b ∧ b ≤ 65535 →
      custom_port_range a b = some ("-p " ++ toString a ++ "-" ++ toString b))
    ∧ (¬(1 ≤ a ∧ a ≤ b ∧ b ≤ 65535) → custom_port_range a b = Option.none) := by
  constructor
  · intro hab
    have hc : 1 ≤ a ∧ a ≤ 65535 ∧ 1 ≤ b ∧ b ≤ 65535 ∧ a ≤ b := by omega
    unfold custom_port_range
    rw [if_pos hc]
  · intro hab
    have hc : ¬(1 ≤ a ∧ a ≤ 65535 ∧ 1 ≤ b ∧ b ≤ 65535 ∧ a ≤ b) := by omega
    unfold custom_port_range
    rw [if_neg hc]

/-- C6 witness: the theorem applied to the accepted pair (80, 443) and the
rejected pair (443, 80). -/
theorem C6_port_range_validation_witness :
    (1 ≤ (80 : Int) ∧ (80 : Int) ≤ 443 ∧ (443 : Int) ≤ 65535) ∧
    custom_port_range 80 443 = some "-p 80-443" ∧
    ¬(1 ≤ (443 : Int) ∧ (443 : Int) ≤ 80 ∧ (80 : Int) ≤ 65535) ∧
    custom_port_range 443 80 = Option.none := by
  refine ⟨by decide, ?_, by decide, (C6_port_range_validation 443 80).2 (by decide)⟩
  have h := (C6_port_range_validation 80 443).1 (by decide)
  rw [h]
  rfl

/-- C7 (confirmed): in the detection selection loop, a key that is not in
the catalog contributes nothing (silently skipped), any known non-custom
key appends exactly its catalog flag at its position in the input order
(so duplicate keys each contribute their flag again), and the concrete
selection "1,42,2,2" yields the flags -sV, -O, -O in input order. -/
theorem C7_detection_lenient (xs : List String) (k : String)
    (scripts : Nat → String) (n : Nat) :
    (detection_options.lookup (py_strip k) = Option.none →
      detection_flags_go scripts (xs ++ [k]) n = detection_flags_go scripts xs n)
    ∧ (∀ d, detection_options.lookup (py_strip k) = some d → py_strip k ≠ "9" →
      detection_flags_go scripts (xs ++ [k]) n =
        detection_flags_go scripts xs n ++ [d.flag])
    ∧ get_detection_flags "1,42,2,2" (fun _ => "") = ["-sV", "-O", "-O"] := by
  refine ⟨?_, ?_, by decide⟩
  · intro hnone
    induction xs generalizing n with
    | nil => simp only [List.nil_append, detection_flags_go, hnone]
    | cons x rest ih =>
      simp only [List.cons_append, detection_flags_go]
      cases hx : detection_options.lookup (py_strip x) with
      | none => simp only [List.append_eq, ih]
      | some d =>
        by_cases h9 : py_strip x = "9"
        · simp only [if_pos h9, List.append_eq, ih]
        · simp only [if_neg h9, List.append_eq, ih]
  · intro d hd h9
    induction xs generalizing n with
    | nil =>
      simp only [List.nil_append, detection_flags_go, hd, if_neg h9]
    | cons x rest ih =>
      simp only [List.cons_append, detection_flags_go]
      cases hx : detection_options.lookup (py_strip x) with
      | none => simp only [List.append_eq, ih]
      | some d2 =>
        by_cases hx9 : py_strip x = "9"
        · simp only [if_pos hx9, List.append_eq, ih, List.cons_append]
        · simp only [if_neg hx9, List.append_eq, ih, List.cons_append]

/-- C7 witness: the theorem applied to the unknown key "42" after the known
key "1", and to the known duplicate-friendly key "2". -/
theorem C7_detection_lenient_witness :
    detection_options.lookup (py_strip "42") = Option.none ∧
    detection_flags_go (fun _ => "") (["1"] ++ ["42"]) 0 =
      detection_flags_go (fun _ => "") ["1"] 0 ∧
    detection_options.lookup (py_strip "2") =
      some ⟨"OS Detection", "-O", "Enable OS detection"⟩ ∧
    py_strip "2" ≠ "9" ∧
    detection_flags_go (fun _ => "") (["1"] ++ ["2"]) 0 =
      detection_flags_go (fun _ => "") ["1"] 0 ++ ["-O"] := by
  refine ⟨by decide, (C7_detection_lenient ["1"] "42" (fun _ => "") 0).1 (by decide),
    by decide, by decide, ?_⟩
  have h := (C7_detection_lenient ["1"] "2" (fun _ => "") 0).2.1
    ⟨"OS Detection", "-O", "Enable OS detection"⟩ (by decide) (by decide)
  exact h

/-- C8 counterexample: selecting the custom script option and answering the
script name prompt with the empty string IS accepted — the code performs
no emptiness check and appends the flag "--script=" — contradicting the
claim that an empty script name is not accepted as a custom script
selection. -/
theorem C8_counterexample :
    get_detection_flags "9" (fun _ => "") = ["--script="] ∧
    get_detection_flags "9" (fun _ => "") ≠ [] := by
  refine ⟨by decide, by decide⟩

/-- C8 (amended): the custom script option accepts any script name, the
empty string included, without validation, and turns it into the flag
"--script=" followed by the stripped name (so the empty name yields the
bare flag "--script="). -/
theorem C8_custom_script_flag (name : String) :
    get_detection_flags "9" (fun _ => name) = ["--script=" ++ py_strip name] := rfl

/-- C9 (confirmed): every command entering the post-build pipeline is
appended to the history with the target field taken from the leftover
builder state, not from the command itself; in particular a template
instantiated with target "10.0.0.1" in a fresh session is recorded with
the empty leftover target, which differs from the command's own
target. -/
theorem C9_history_target_leftover :
    (∀ (s : Session) (command now : String) (menu : List MenuChoice),
      ((process_built_command s command now menu).1.history).getLast? =
        some ⟨now, command, s.command_parts.target⟩)
    ∧ (∀ (now : String) (menu : List MenuChoice),
      ((quick_templates_run fresh_session "3" "10.0.0.1" now menu).1.history).getLast? =
        some ⟨now, "nmap -sS -sV -O -A 10.0.0.1", ""⟩)
    ∧ ("" : String) ≠ "10.0.0.1" := by
  refine ⟨?_, ?_, by decide⟩
  · intro s command now menu
    exact save_command_history_getLast s.history ⟨now, command, s.command_parts.target⟩
  · intro now menu
    rfl

/-- C10 (confirmed): the history is written exactly once per command
entering the post-build pipeline, before the options menu runs, and is
the same whatever menu choices follow; the modify option replaces the
command used by the subsequent execute, save-script and copy actions but
never touches the history, so the history keeps the pre-modification
command string. -/
theorem C10_history_write_once :
    (∀ (s : Session) (command now : String) (menu : List MenuChoice),
      (process_built_command s command now menu).1.history =
        save_command_history s.history ⟨now, command, s.command_parts.target⟩)
    ∧ (∀ (command raw : String) (rest : List MenuChoice), py_strip raw ≠ "" →
      menu_loop command (MenuChoice.modify raw :: rest) = menu_loop (py_strip raw) rest)
    ∧ (∀ (s : Session) (command now : String) (menu menu2 : List MenuChoice),
      (process_built_command s command now menu).1.history =
        (process_built_command s command now menu2).1.history)
    ∧ menu_loop "nmap -sS 10.0.0.1"
        [MenuChoice.modify " nmap -A 10.0.0.1 ", MenuChoice.execute, MenuChoice.ret] =
        [MenuAction.executed "nmap -A 10.0.0.1"] := by
  refine ⟨fun s command now menu => rfl, ?_, fun s command now menu menu2 => rfl, by decide⟩
  intro command raw rest h
  simp only [menu_loop, if_pos h]

/-- C10 witness: the modify rewrite of the theorem applied at a concrete
non-empty replacement command. -/
theorem C10_history_write_once_witness :
    py_strip " nmap -F 10.0.0.2 " ≠ "" ∧
    menu_loop "nmap 10.0.0.1" [MenuChoice.modify " nmap -F 10.0.0.2 "] =
      menu_loop (py_strip " nmap -F 10.0.0.2 ") [] :=
  ⟨by decide, C10_history_write_once.2.1 "nmap 10.0.0.1" " nmap -F 10.0.0.2 " [] (by decide)⟩
